import Mathlib

/-
Verification of the change-detection pipeline in src/alamo_alert.py.

The script is meant to scrape the theater showtime page, extract a list of
movies (title, showtimes, url), diff it against a JSON cache of the
previous run, email an alert for new titles, and rewrite the cache.

Two defects in the source govern everything the orchestrating code can do:
- Line 24 reads CACHE>File = "alamo_cache.json".  A comparison is not a
  valid assignment target, so the Python parser rejects the module before
  anything executes, and in particular no binding for the name CACHE_FILE
  (used at lines 181, 183 and 191) is ever created.  Even considering the
  functions individually, load_cache and save_cache begin by evaluating the
  unbound name CACHE_FILE and raise NameError.
- Line 70 passes execute_script a script in which, after the second
  argument, a stray quote opens a further string literal that never closes.
  The JavaScript engine rejects it, execute_script raises, and the except
  arm of get_driver logs and re-raises: get_driver raises on every path, so
  fetch_movies (which calls it before its try block) always propagates.

Shallow embedding conventions:
- BeautifulSoup selector results are modelled structurally: a Block carries,
  for each of the four title selectors tried by select_one, the text of the
  element it returns (None when the selector matches nothing), and, for each
  of the four showtime selectors tried by select, the list of texts of the
  matched elements.  A Document carries the four candidate block lists of the
  movie-card selector cascade.
- get_text with strip=True is modelled by the function strip below, which
  removes leading and trailing whitespace, exactly as Python str.strip does.
- Python exceptions that reach a caller are modelled with Except PyErr;
  external effects (Chrome startup, page rendering, the SMTP session, the
  cache file on disk) are modelled by explicit outcome values, and the
  control flow of the Python functions over those outcomes is translated
  branch by branch, dead branches included where they document the source.
-/

/-- THEATER_URL from the configuration block of the script. -/
def THEATER_URL : String := "https://drafthouse.com/austin/showtimes"

/-- One entry of the list built by fetch_movies: the dict
\x7b"title": ..., "showtimes": [...], "url": ...\x7d. -/
structure Movie where
  title : String
  showtimes : List String
  url : String
deriving DecidableEq, Repr

/-- Python str.strip / BeautifulSoup get_text(strip=True): drop leading and
trailing whitespace characters. -/
def strip (s : String) : String :=
  ⟨((s.data.dropWhile Char.isWhitespace).reverse.dropWhile Char.isWhitespace).reverse⟩

/-- One candidate movie block, as seen through the selectors fetch_movies
uses inside the per-block loop.  Each title field is the stripped-later raw
text of the element returned by the corresponding select_one call (none when
the selector matches nothing); each times field is the list of raw texts of
the elements returned by the corresponding select call. -/
structure Block where
  titleTestid : Option String
  titleH3 : Option String
  titleH2 : Option String
  titleClass : Option String
  timesTestid : List String
  timesClass : List String
  timesSession : List String
  timesButton : List String
deriving DecidableEq, Repr

/-- The rendered page, as seen through the four movie-card selectors of the
cascade in fetch_movies (lines 118-123): in order,
soup.select with the data-testid movie-card attribute, with .movie-card,
with article, and with .showtime-movie. -/
structure Document where
  cardsTestid : List Block
  cardsClass : List Block
  articles : List Block
  showtimeMovie : List Block
deriving DecidableEq, Repr

/-- The movie_blocks cascade of fetch_movies: Python `a or b or c or d`
on lists returns the first non-empty operand, and the last one when all are
empty. -/
def movie_blocks (doc : Document) : List Block :=
  if doc.cardsTestid ≠ [] then doc.cardsTestid
  else if doc.cardsClass ≠ [] then doc.cardsClass
  else if doc.articles ≠ [] then doc.articles
  else doc.showtimeMovie

/-- The title_elem cascade inside the block loop (lines 129-134): Python
`a or b or c or d` on select_one results returns the first element that is
not None. -/
def pickTitle (b : Block) : Option String :=
  match b.titleTestid with
  | some t => some t
  | none =>
    match b.titleH3 with
    | some t => some t
    | none =>
      match b.titleH2 with
      | some t => some t
      | none => b.titleClass

/-- The time_elems cascade inside the block loop (lines 142-147): first
non-empty select result, and the last one when all are empty. -/
def pickTimes (b : Block) : List String :=
  if b.timesTestid ≠ [] then b.timesTestid
  else if b.timesClass ≠ [] then b.timesClass
  else if b.timesSession ≠ [] then b.timesSession
  else b.timesButton

/-- The body of the per-block loop of fetch_movies (lines 127-157):
skip the block when no title element is found, when the stripped title is
empty, or when the list of non-empty stripped showtime texts is empty;
otherwise produce the movie dict with the fixed url. -/
def extractBlock (b : Block) : Option Movie :=
  match pickTitle b with
  | none => none
  | some raw =>
    let title := strip raw
    if title = "" then none
    else
      let showtimes := (pickTimes b).filterMap fun t =>
        let s := strip t
        if s = "" then none else some s
      if showtimes = [] then none
      else some { title := title, showtimes := showtimes, url := THEATER_URL }

/-- The extraction loop of fetch_movies (lines 115-157), as a function of
the parsed document: the movies list accumulated over movie_blocks. -/
def extract_movies (doc : Document) : List Movie :=
  (movie_blocks doc).filterMap extractBlock

/-- Python exceptions that escape a function in this script. -/
inductive PyErr where
  | nameError
  | parseError
  | webdriverError
deriving DecidableEq, Repr

/-- The name CACHE_FILE, as resolved at run time.  Line 24 of the source
reads CACHE>File = "alamo_cache.json", which is not an assignment to a
name (a comparison cannot be assigned to), so no binding for CACHE_FILE is
ever created and evaluating the name raises NameError. -/
def CACHE_FILE : Except PyErr String := Except.error PyErr.nameError

/-- Whether webdriver.Chrome manages to start at line 69. -/
inductive DriverInitOutcome where
  | chromeFailed
  | chromeStarted
deriving DecidableEq, Repr

/-- get_driver (lines 47-76).  When webdriver.Chrome raises, the except arm
logs and re-raises (line 76).  When Chrome starts, line 70 calls
execute_script with a script that is not valid JavaScript - after the
second argument a stray quote opens a further string literal that never
closes - so the JavaScript engine rejects the script, execute_script raises
on every execution, and the same except arm logs and re-raises.  The
set_page_load_timeout call and the return statement are dead code:
get_driver never returns a driver. -/
def get_driver : DriverInitOutcome → Except PyErr Unit
  | DriverInitOutcome.chromeFailed => Except.error PyErr.webdriverError
  | DriverInitOutcome.chromeStarted => Except.error PyErr.webdriverError

/-- What would happen inside the try block of fetch_movies if a driver were
available: the page renders into a document, the page-load wait times out
(TimeoutException, caught at line 162), or some other exception is raised
while scraping (caught at line 164). -/
inductive RenderOutcome where
  | ok (doc : Document)
  | timeout
  | scrapeError
deriving Repr

/-- fetch_movies (lines 79-177): get_driver is called at line 81, before
the try block, so its exception propagates to the caller, and since
get_driver raises on every path, fetch_movies always raises too.  The try
block - the waits, the extraction loop, and the except arms that swallow
TimeoutException and other scraping errors into the `return []` at line
177 - is dead code; it is translated here in the ok branch as lines 84-177
read. -/
def fetch_movies (d : DriverInitOutcome) (r : RenderOutcome) :
    Except PyErr (List Movie) :=
  match get_driver d with
  | Except.error e => Except.error e
  | Except.ok _ =>
    match r with
    | RenderOutcome.ok doc => Except.ok (extract_movies doc)
    | RenderOutcome.timeout => Except.ok []
    | RenderOutcome.scrapeError => Except.ok []

/-- State of the cache file on disk: whether the file exists, and the
outcome of open-and-json.load when it does (error for an unreadable file or
malformed JSON). -/
structure CacheFile where
  fileExists : Bool
  readParse : Except Unit (List Movie)

/-- load_cache (lines 180-187): its first expression,
os.path.exists(CACHE_FILE), evaluates the name CACHE_FILE outside the try
block; the name is unbound (line 24), so NameError propagates to the caller
on every call and the bare except at line 185 never comes into play.  Had
the name resolved, a missing file or a swallowed read/parse exception would
give the empty list and a parsed file its list, as the dead branches below
record. -/
def load_cache (c : CacheFile) : Except PyErr (List Movie) :=
  match CACHE_FILE with
  | Except.error e => Except.error e
  | Except.ok _ =>
    if c.fileExists then
      match c.readParse with
      | Except.ok v => Except.ok v
      | Except.error _ => Except.ok []
    else Except.ok []

/-- save_cache (lines 190-192): open(CACHE_FILE, 'w') evaluates the unbound
name CACHE_FILE before opening anything, so NameError propagates and no
write happens - the cache file on disk is left as it was.  Had the name
resolved, the file would be rewritten so that it parses back to exactly the
given list, as the dead branch records. -/
def save_cache (movies : List Movie) : Except PyErr CacheFile :=
  match CACHE_FILE with
  | Except.error e => Except.error e
  | Except.ok _ => Except.ok { fileExists := true, readParse := Except.ok movies }

/-- get_new_showtimes (lines 195-197): keep the current entries whose title
is not the title of any previous entry, preserving the order of the current
list.  old_titles is the set of previous titles, so membership is exact
string equality of titles. -/
def get_new_showtimes (old new : List Movie) : List Movie :=
  new.filter fun m => !(old.any fun o => o.title == m.title)

/-- The EMAIL_* configuration read from the environment.  Python truthiness
of the all(...) check means a credential counts as present only when it is
set and non-empty. -/
structure EmailConfig where
  enabled : Bool
  emailTo : Option String
  emailFrom : Option String
  emailPass : Option String
deriving DecidableEq, Repr

/-- Python truthiness of an optional string: None and the empty string are
falsy. -/
def truthy : Option String → Bool
  | none => false
  | some s => s ≠ ""

/-- Outcome of the SMTP session attempted by send_email_alert. -/
inductive SmtpOutcome where
  | success
  | failure
deriving DecidableEq, Repr

/-- Observable result of send_email_alert: skipped when email is disabled or
credentials are missing, sent on SMTP success, failedLogged when the SMTP
session raised and the exception was caught and logged (lines 232-233). -/
inductive SendStatus where
  | skipped
  | sent
  | failedLogged
deriving DecidableEq, Repr

/-- send_email_alert (lines 200-233): returns early when not EMAIL_ENABLED
or any credential is falsy; otherwise attempts the SMTP send, catching any
exception.  In every case the function returns normally. -/
def send_email_alert (cfg : EmailConfig) (smtp : SmtpOutcome)
    (_new_movies : List Movie) : SendStatus :=
  if !(cfg.enabled && truthy cfg.emailTo && truthy cfg.emailFrom
        && truthy cfg.emailPass) then
    SendStatus.skipped
  else
    match smtp with
    | SmtpOutcome.success => SendStatus.sent
    | SmtpOutcome.failure => SendStatus.failedLogged

/-- Observable trace of one invocation of main: the list durably written by
save_cache when a write completed (none when nothing was written), the
resulting cache-file state on disk, the list passed to send_email_alert when
it was called, the send outcome, and whether the invocation ended in an
uncaught exception. -/
structure RunTrace where
  savedCache : Option (List Movie)
  finalCache : CacheFile
  alerted : Option (List Movie)
  emailStatus : Option SendStatus
  crashed : Bool

/-- The tail of main (lines 241-251), reachable only if fetch_movies and
load_cache had returned values: compute new_movies, call send_email_alert
only when it is non-empty (send_email_alert returns normally even when SMTP
fails), then call save_cache - which resolves the unbound name CACHE_FILE
and raises NameError before writing, so the cache file stays as it was and
main dies with an uncaught exception. -/
def runAfterFetch (current_movies previous_movies : List Movie)
    (cache : CacheFile) (cfg : EmailConfig) (smtp : SmtpOutcome) : RunTrace :=
  let new_movies := get_new_showtimes previous_movies current_movies
  let al := if new_movies ≠ [] then some new_movies else none
  let es := if new_movies ≠ [] then some (send_email_alert cfg smtp new_movies)
            else none
  match save_cache current_movies with
  | Except.error _ =>
    { savedCache := none, finalCache := cache, alerted := al
      emailStatus := es, crashed := true }
  | Except.ok newFile =>
    { savedCache := some current_movies, finalCache := newFile, alerted := al
      emailStatus := es, crashed := false }

/-- main (lines 236-252), taken as a function (the module itself never gets
this far, see runScript): fetch_movies runs first (line 238) and raises on
every path, so main propagates with nothing loaded and nothing saved; had it
returned, load_cache (line 239) raises NameError next, again before the
diff, the alert or any save. -/
def mainRun (d : DriverInitOutcome) (r : RenderOutcome) (cache : CacheFile)
    (cfg : EmailConfig) (smtp : SmtpOutcome) : RunTrace :=
  match fetch_movies d r with
  | Except.error _ =>
    { savedCache := none, finalCache := cache, alerted := none
      emailStatus := none, crashed := true }
  | Except.ok current_movies =>
    match load_cache cache with
    | Except.error _ =>
      { savedCache := none, finalCache := cache, alerted := none
        emailStatus := none, crashed := true }
    | Except.ok previous_movies =>
      runAfterFetch current_movies previous_movies cache cfg smtp

/-- Invoking the script as a whole (python alamo_alert.py): the Python
parser rejects the module at line 24 (CACHE>File = ... assigns to a
comparison), so nothing in the file executes - main never starts and the
cache file on disk is untouched. -/
def runScript (cache : CacheFile) : CacheFile × Except PyErr Unit :=
  (cache, Except.error PyErr.parseError)

/-! Concrete data used by counterexamples, witnesses and evaluations. -/

/-- A movie as the extraction loop would build it. -/
def mAlien : Movie :=
  { title := "Alien", showtimes := ["7:00pm"], url := THEATER_URL }

/-- A second movie, with a title lexicographically after mAlien's. -/
def mBrook : Movie :=
  { title := "Brooklyn", showtimes := ["9:30pm"], url := THEATER_URL }

/-- A cache file on disk holding exactly [mAlien], well-formed JSON. -/
def cacheA : CacheFile :=
  { fileExists := true, readParse := Except.ok [mAlien] }

/-- An EmailConfig with email disabled. -/
def cfgOff : EmailConfig :=
  { enabled := false, emailTo := none, emailFrom := none, emailPass := none }

/-- An EmailConfig with email enabled and all credentials present. -/
def cfgOn : EmailConfig :=
  { enabled := true, emailTo := some "to@example.org"
    emailFrom := some "from@example.org", emailPass := some "hunter2" }

/-- A block whose only title element is an h3 reading " Alien " (whitespace
around it) and whose only showtime elements are generic buttons, one of them
blank. -/
def blockAlien : Block :=
  { titleTestid := none, titleH3 := some " Alien ", titleH2 := none
    titleClass := none, timesTestid := [], timesClass := []
    timesSession := [], timesButton := ["7:15pm", " "] }

/-- A block like blockAlien but titled "Brooklyn". -/
def blockBrook : Block :=
  { titleTestid := none, titleH3 := some "Brooklyn", titleH2 := none
    titleClass := none, timesTestid := [], timesClass := []
    timesSession := [], timesButton := ["9:30pm"] }

/-- A document whose article rule matches the same movie block twice (the
two earlier card rules match nothing). -/
def docDup : Document :=
  { cardsTestid := [], cardsClass := []
    articles := [blockAlien, blockAlien], showtimeMovie := [] }

/-- A block titled "Buy": three characters, and (lower-cased) a navigation
noise term on the denylist the specification describes. -/
def blockBuy : Block :=
  { titleTestid := some "Buy", titleH3 := none, titleH2 := none
    titleClass := none, timesTestid := ["7:00pm"], timesClass := []
    timesSession := [], timesButton := [] }

/-- A block titled "ab": two characters, at or below every cutoff in the
2 to 3 character range the specification gives. -/
def blockAb : Block :=
  { titleTestid := none, titleH3 := some "ab", titleH2 := none
    titleClass := none, timesTestid := ["8:00pm"], timesClass := []
    timesSession := [], timesButton := [] }

/-- A document whose first card rule matches the noise blocks. -/
def docNoise : Document :=
  { cardsTestid := [blockBuy, blockAb], cardsClass := []
    articles := [], showtimeMovie := [] }

/-- The movie extracted from blockBuy. -/
def mvBuy : Movie :=
  { title := "Buy", showtimes := ["7:00pm"], url := THEATER_URL }

/-- The movie extracted from blockAb. -/
def mvAb : Movie :=
  { title := "ab", showtimes := ["8:00pm"], url := THEATER_URL }

/-- A document where rule 1 (the data-testid movie-card selector) matches
one block while rule 3 (article) matches two different blocks. -/
def docRule1 : Document :=
  { cardsTestid := [blockAlien], cardsClass := []
    articles := [blockBrook, blockBrook], showtimeMovie := [] }

/-- A previously stored entry for the title "Dune". -/
def mDuneOld : Movie :=
  { title := "Dune", showtimes := ["1:00pm"], url := THEATER_URL }

/-- A current entry with the same title "Dune" but different showtimes. -/
def mDuneNew : Movie :=
  { title := "Dune", showtimes := ["9:45pm", "11:00pm"], url := THEATER_URL }

/-! Helper lemmas shared by several results. -/

/-- Membership in the diff: a current entry is in the result of
get_new_showtimes exactly when no previous entry carries its title. -/
theorem mem_get_new_showtimes (old new : List Movie) (m : Movie) :
    m ∈ get_new_showtimes old new ↔ m ∈ new ∧ ∀ o ∈ old, o.title ≠ m.title := by
  simp [get_new_showtimes, List.mem_filter, List.any_eq_true]

/-- The diff is an order-preserving sublist of the current list. -/
theorem get_new_showtimes_sublist (old new : List Movie) :
    List.Sublist (get_new_showtimes old new) new :=
  List.filter_sublist _

/-- The stripped showtime texts kept by the block loop are never empty
strings. -/
theorem empty_notMem_stripped (ts : List String) :
    "" ∉ ts.filterMap fun t =>
      let s := strip t
      if s = "" then none else some s := by
  intro hmem
  rcases List.mem_filterMap.mp hmem with ⟨t, _, ht⟩
  dsimp only at ht
  split at ht
  · cases ht
  · rename_i hne
    exact hne (Option.some.inj ht)

/-! Claim C1. -/

/-- C1: the claim reads that when rendering fails the run never writes the
snapshot store and a subsequent load returns the pre-run snapshot unchanged.
Evaluating the code: the module itself never runs (the parser rejects line
24), and even main taken as a function always crashes at fetch_movies, since
get_driver raises on every path (line 70); so indeed nothing is ever saved
and the cache file stays [mAlien] - but the other half of the claim fails,
because a subsequent load_cache call does not return the pre-run snapshot:
it raises NameError (CACHE_FILE is unbound, line 24). -/
theorem c1_code_bug_eval :
    runScript cacheA = (cacheA, Except.error PyErr.parseError) ∧
    (mainRun DriverInitOutcome.chromeStarted RenderOutcome.timeout cacheA
        cfgOff SmtpOutcome.success).savedCache = none ∧
    (mainRun DriverInitOutcome.chromeStarted RenderOutcome.timeout cacheA
        cfgOff SmtpOutcome.success).finalCache = cacheA ∧
    (mainRun DriverInitOutcome.chromeStarted RenderOutcome.timeout cacheA
        cfgOff SmtpOutcome.success).crashed = true ∧
    load_cache cacheA = Except.error PyErr.nameError :=
  ⟨rfl, rfl, rfl, rfl, rfl⟩

/-! Claim C2. -/

/-- C2 counterexample: the claim says the Delta is sorted lexicographically.
With previous empty and current [mBrook, mAlien], the code returns the
current list in its original order [mBrook, mAlien], although the title of
mAlien sorts strictly before the title of mBrook, so the sorted difference
would be [mAlien, mBrook]. -/
theorem c2_counterexample :
    get_new_showtimes [] [mBrook, mAlien] = [mBrook, mAlien] ∧
    mAlien.title.data < mBrook.title.data ∧
    [mBrook, mAlien] ≠ [mAlien, mBrook] :=
  ⟨rfl, by decide, by decide⟩

/-- C2 amended: the Delta is the set difference current minus previous by
exact title equality, but in the order of the current list (an
order-preserving sublist of current), not sorted: an entry of current is in
the Delta exactly when no previous entry carries its title. -/
theorem c2_amended_delta (old new : List Movie) :
    List.Sublist (get_new_showtimes old new) new ∧
    (∀ m : Movie,
      m ∈ get_new_showtimes old new ↔ m ∈ new ∧ ∀ o ∈ old, o.title ≠ m.title) :=
  ⟨get_new_showtimes_sublist old new, fun m => mem_get_new_showtimes old new m⟩

/-- C2 amended, witnessed at a concrete input: with previous [mAlien] and
current [mAlien, mBrook], the Delta is a sublist of current and mBrook is in
it exactly because no previous entry is titled "Brooklyn". -/
theorem c2_amended_delta_witness :
    List.Sublist (get_new_showtimes [mAlien] [mAlien, mBrook]) [mAlien, mBrook] ∧
    (mBrook ∈ get_new_showtimes [mAlien] [mAlien, mBrook] ↔
      mBrook ∈ [mAlien, mBrook] ∧ ∀ o ∈ [mAlien], o.title ≠ mBrook.title) :=
  ⟨(c2_amended_delta [mAlien] [mAlien, mBrook]).1,
   (c2_amended_delta [mAlien] [mAlien, mBrook]).2 mBrook⟩

/-! Claim C3. -/

/-- C3 counterexample: the claim says extraction never produces two entries
with equal title and the Delta never contains duplicates.  On a document
whose winning rule matches the same block twice, extraction produces the
title "Alien" twice, and diffing that result against an empty previous set
yields a Delta whose titles are not duplicate-free. -/
theorem c3_counterexample :
    (extract_movies docDup).map Movie.title = ["Alien", "Alien"] ∧
    ¬ ((get_new_showtimes [] (extract_movies docDup)).map Movie.title).Nodup :=
  ⟨rfl, by decide⟩

/-- C3 amended: extraction does not deduplicate - one entry is appended per
qualifying block, so equal titles can occur as often as the winning rule
yields them, and they propagate into the Delta.  The Delta, being an
order-preserving sublist of current, has duplicate-free titles whenever the
current list does. -/
theorem c3_amended_no_dedup (old new : List Movie)
    (h : (new.map Movie.title).Nodup) :
    ((get_new_showtimes old new).map Movie.title).Nodup :=
  h.sublist ((get_new_showtimes_sublist old new).map Movie.title)

/-- C3 amended, witnessed: with duplicate-free current titles the Delta
titles are duplicate-free. -/
theorem c3_amended_no_dedup_witness :
    ((get_new_showtimes [mAlien] [mAlien, mBrook]).map Movie.title).Nodup :=
  c3_amended_no_dedup [mAlien] [mAlien, mBrook] (by decide)

/-! Claim C4. -/

/-- C4 counterexample: the claim says a candidate whose trimmed length is at
most the 2-3 character threshold, or whose lower-cased text is a denylisted
noise term, is rejected.  The code has no such checks: on a document whose
winning rule matches a block titled "Buy" (three characters, a denylisted
term up to case) and a block titled "ab" (two characters), both survive into
the result. -/
theorem c4_counterexample :
    extract_movies docNoise = [mvBuy, mvAb] ∧
    mvBuy.title.length = 3 ∧ mvAb.title.length = 2 :=
  ⟨rfl, rfl, rfl⟩

/-- C4 amended: per candidate of the winning rule, extraction strips the
title text and rejects the candidate only when the stripped title is empty
or when the block yields no non-empty stripped showtime text; there is no
length threshold beyond non-emptiness and no denylist, and every surviving
entry has a non-empty title and a non-empty list of non-empty showtimes. -/
theorem c4_amended_filter (doc : Document) (m : Movie)
    (h : m ∈ extract_movies doc) :
    m.title ≠ "" ∧ m.showtimes ≠ [] ∧ "" ∉ m.showtimes := by
  rcases List.mem_filterMap.mp h with ⟨b, _, hb⟩
  unfold extractBlock at hb
  split at hb
  · cases hb
  · rename_i raw heq
    dsimp only at hb
    split at hb
    · cases hb
    · rename_i htitle
      split at hb
      · cases hb
      · rename_i htimes
        cases Option.some.inj hb
        exact ⟨htitle, htimes, empty_notMem_stripped _⟩

/-- C4 amended, witnessed at docNoise: the extracted entry mvBuy has a
non-empty title and non-empty showtimes. -/
theorem c4_amended_filter_witness :
    mvBuy.title ≠ "" ∧ mvBuy.showtimes ≠ [] ∧ "" ∉ mvBuy.showtimes :=
  c4_amended_filter docNoise mvBuy (by decide)

/-! Claim C5. -/

/-- C5: the claim reads diff(S, S) = (∅, S).  Evaluating the code at
S = [mAlien]: the Delta half holds - get_new_showtimes([mAlien], [mAlien])
is empty - but the code never produces the next snapshot: save_cache raises
NameError before writing (CACHE_FILE unbound, line 24), so even the dead
tail of main that would persist S ends crashed with nothing saved, and a
real run crashes earlier still, at fetch_movies. -/
theorem c5_code_bug_eval :
    get_new_showtimes [mAlien] [mAlien] = [] ∧
    save_cache [mAlien] = Except.error PyErr.nameError ∧
    (runAfterFetch [mAlien] [mAlien] cacheA cfgOff SmtpOutcome.success).savedCache
        = none ∧
    (runAfterFetch [mAlien] [mAlien] cacheA cfgOff SmtpOutcome.success).crashed
        = true ∧
    (mainRun DriverInitOutcome.chromeFailed (RenderOutcome.ok docRule1) cacheA
        cfgOff SmtpOutcome.success).savedCache = none :=
  ⟨by decide, rfl, rfl, rfl, rfl⟩

/-! Claim C6. -/

/-- C6: the claim reads that after a successful run the snapshot persisted
is exactly the current extraction B.  Evaluating the code with previous
[mAlien] and current [mBrook]: save_cache raises NameError at the
open(CACHE_FILE, 'w') call and writes nothing, so the tail of main ends
crashed with the cache file still holding [mAlien]; and no run is ever
successful anyway, since main crashes at fetch_movies (line 70 defect)
before reaching line 251. -/
theorem c6_code_bug_eval :
    save_cache [mBrook] = Except.error PyErr.nameError ∧
    (runAfterFetch [mBrook] [mAlien] cacheA cfgOff SmtpOutcome.success).savedCache
        = none ∧
    (runAfterFetch [mBrook] [mAlien] cacheA cfgOff SmtpOutcome.success).finalCache
        = cacheA ∧
    (runAfterFetch [mBrook] [mAlien] cacheA cfgOff SmtpOutcome.success).crashed
        = true :=
  ⟨rfl, rfl, rfl, rfl⟩

/-! Claim C7. -/

/-- C7: extraction uses exclusively the first card rule that yields at least
one block: when the first selector (the data-testid movie-card rule) matches
any blocks, the result is computed from those blocks alone, and the blocks
matched by later rules are never consulted. -/
theorem c7_cascade_priority (doc : Document) (h : doc.cardsTestid ≠ []) :
    extract_movies doc = doc.cardsTestid.filterMap extractBlock := by
  unfold extract_movies movie_blocks
  rw [if_pos h]

/-- C7 witnessed at docRule1, where rule 1 matches one block and rule 3
matches two different blocks: the result comes from rule 1 alone. -/
theorem c7_cascade_priority_witness :
    extract_movies docRule1 = docRule1.cardsTestid.filterMap extractBlock :=
  c7_cascade_priority docRule1 (by decide)

/-! Claim C8. -/

/-- C8: the claim reads that a notifier failure is absorbed and the store
still receives save(key, nextSnapshot) on every run reaching the diffing
stage.  Evaluating the code: the absorption half is real - send_email_alert
catches the SMTP exception and returns failedLogged - but the persistence
half fails: in the dead tail of main the subsequent save_cache call raises
NameError without writing, and no actual run even reaches the diffing
stage, main crashing at fetch_movies on every path. -/
theorem c8_code_bug_eval :
    send_email_alert cfgOn SmtpOutcome.failure [mAlien] = SendStatus.failedLogged ∧
    (runAfterFetch [mAlien] [] cacheA cfgOn SmtpOutcome.failure).emailStatus
        = some SendStatus.failedLogged ∧
    (runAfterFetch [mAlien] [] cacheA cfgOn SmtpOutcome.failure).savedCache
        = none ∧
    (runAfterFetch [mAlien] [] cacheA cfgOn SmtpOutcome.failure).crashed = true ∧
    (mainRun DriverInitOutcome.chromeStarted (RenderOutcome.ok docRule1) cacheA
        cfgOn SmtpOutcome.failure).crashed = true :=
  ⟨by decide, by decide, by decide, by decide, rfl⟩

/-! Claim C9. -/

/-- C9: the claim reads that load_cache is total for the caller, returning
the empty set on an absent or corrupt snapshot and never propagating an
exception.  Evaluating the code: every call raises NameError, because the
first expression os.path.exists(CACHE_FILE) evaluates the unbound name
CACHE_FILE outside the try block (line 24 never defines it) - here shown
for an absent file, a corrupt file and a well-formed file alike. -/
theorem c9_code_bug_eval :
    load_cache { fileExists := false, readParse := Except.ok [] }
        = Except.error PyErr.nameError ∧
    load_cache { fileExists := true, readParse := Except.error () }
        = Except.error PyErr.nameError ∧
    load_cache cacheA = Except.error PyErr.nameError :=
  ⟨rfl, rfl, rfl⟩

/-! Claim C10. -/

/-- C10: the diff compares entries by title alone: a current entry whose
title equals the title of some previous entry is excluded from the Delta,
even when its showtimes or url differ from the previously stored entry. -/
theorem c10_title_only_diff (old new : List Movie) (m : Movie)
    (_hm : m ∈ new) (hprev : ∃ o ∈ old, o.title = m.title) :
    m ∉ get_new_showtimes old new := by
  intro hmem
  rcases hprev with ⟨o, ho, hot⟩
  exact ((mem_get_new_showtimes old new m).mp hmem).2 o ho hot

/-- C10 witnessed: the stored "Dune" entry has showtimes ["1:00pm"], the
current "Dune" entry has different showtimes, and the current entry is still
excluded from the Delta. -/
theorem c10_title_only_diff_witness :
    mDuneNew ∉ get_new_showtimes [mDuneOld] [mDuneNew] :=
  c10_title_only_diff [mDuneOld] [mDuneNew] mDuneNew (by decide)
    ⟨mDuneOld, by decide, rfl⟩
